import Mathlib

/-!
Verification of the natural-language specification of the RedBlackTree
repository (src/redblacktree.py) against the code.

The Python code mutates nodes in place through parent and child references,
and all trees share one sentinel object (NIL_NODE).  To stay faithful to
that aliasing behaviour (which several claims hinge on), the embedding is a
small heap model: nodes live in a list indexed by numeric ids, id 0 is the
shared sentinel, and every method of the Python class becomes a function in
a state-plus-error monad M.  Python exceptions (AttributeError, TypeError,
ValueError, and the explicit raise statements) are modelled as error values
that carry no state rollback: mutations performed before the raise persist,
exactly as in Python.  Unbounded recursion in the source is modelled with a
fuel parameter; running out of fuel is a distinguished error and stands for
a Python RecursionError.
-/

namespace RBT

/-- Model of RBColorEnum: black, NIL, RED. -/
inductive Color where
  | black
  | nil
  | red
deriving DecidableEq, Repr

/-- Model of RBDirectionEnum: LEFT, RIGHT. -/
inductive Dir where
  | left
  | right
deriving DecidableEq, Repr

/-- Python exceptions that the embedded code can raise. -/
inductive PyErr where
  /-- Python AttributeError (attribute access on None or on a non-object). -/
  | attributeError
  /-- Python TypeError (subscripting or unpacking a non-sequence). -/
  | typeError
  /-- Python ValueError (unpacking a tuple of the wrong length). -/
  | valueError
  /-- Exception raised by validate_key. -/
  | invalidKey
  /-- Exception raised in the red branch of the private remove method. -/
  | unexpectedBehavior
  /-- Exception raised by the sanity check in the private remove method. -/
  | redChildHasChildren
  /-- Exception raised at the end of case 6 of the deletion balancer. -/
  | shouldHaveEnded
  /-- Exception raised by try_rebalance on an unknown direction pair. -/
  | invalidDirection
  /-- Model artifact: recursion fuel exhausted, stands for RecursionError. -/
  | fuelOut
  /-- Model artifact: dangling node id (cannot happen in generated heaps). -/
  | badRef
deriving DecidableEq, Repr

/-- Model of RBNode: key None is modelled as Option.none (the sentinel key),
a value None inside the values list likewise. -/
structure Node where
  key : Option Int
  values : List (Option Int)
  color : Color
  parent : Option Nat
  left : Option Nat
  right : Option Nat
deriving DecidableEq, Repr

/-- The whole mutable state: the node store (id 0 is the shared NIL_NODE
sentinel) and the root reference of the tree. -/
structure Heap where
  nodes : List Node
  root : Option Nat
deriving DecidableEq, Repr

/-- The shared sentinel object NIL_NODE = RBNode(key=None, value=None,
color=NIL, parent=None): its values list is [None]. -/
def nilNode : Node :=
  { key := none, values := [none], color := Color.nil,
    parent := none, left := none, right := none }

/-- The initial state of a freshly constructed tree: only the sentinel. -/
def heap0 : Heap := { nodes := [nilNode], root := none }

/-- The comparator triple handed to the constructor: less-than, equals and
the key validator.  Keys are integers (the default validator accepts
exactly the integer-typed keys). -/
structure Cfg where
  lt : Int → Int → Bool
  eq : Int → Int → Bool
  valid : Int → Bool

/-- The default configuration: natural order, natural equality, and the
default validator (isinstance int), which accepts every integer key. -/
def defaultCfg : Cfg :=
  { lt := fun a b => a < b, eq := fun a b => a == b, valid := fun _ => true }

/-- State-and-error monad: each step returns a Python result or a raised
exception, together with the heap as mutated so far (raising does not roll
anything back). -/
def M (α : Type) : Type := Heap → Except PyErr α × Heap

/-- Monadic pure. -/
def M.pureM {α : Type} (a : α) : M α := fun h => (Except.ok a, h)

/-- Monadic bind: errors short-circuit but keep the mutated heap. -/
def M.bindM {α β : Type} (x : M α) (f : α → M β) : M β := fun h =>
  match x h with
  | (Except.ok a, h2) => f a h2
  | (Except.error e, h2) => (Except.error e, h2)

instance : Monad M where
  pure := M.pureM
  bind := M.bindM

/-- Raise a Python exception. -/
def throwE {α : Type} (e : PyErr) : M α := fun h => (Except.error e, h)

/-- Read the whole heap. -/
def getH : M Heap := fun h => (Except.ok h, h)

/-- Fetch the record of a node id. -/
def getNode (i : Nat) : M Node := fun h =>
  match h.nodes.get? i with
  | some n => (Except.ok n, h)
  | none => (Except.error PyErr.badRef, h)

/-- Update the record of a node id in place. -/
def modNode (i : Nat) (f : Node → Node) : M Unit := fun h =>
  match h.nodes.get? i with
  | some n => (Except.ok (), { h with nodes := h.nodes.set i (f n) })
  | none => (Except.error PyErr.badRef, h)

/-- Assignment node._color = c. -/
def setColor (i : Nat) (c : Color) : M Unit := modNode i (fun n => { n with color := c })

/-- Assignment node._parent = p. -/
def setParentF (i : Nat) (p : Option Nat) : M Unit := modNode i (fun n => { n with parent := p })

/-- Assignment node._left = l. -/
def setLeftF (i : Nat) (l : Option Nat) : M Unit := modNode i (fun n => { n with left := l })

/-- Assignment node._right = r. -/
def setRightF (i : Nat) (r : Option Nat) : M Unit := modNode i (fun n => { n with right := r })

/-- Assignment node._key = k. -/
def setKeyF (i : Nat) (k : Option Int) : M Unit := modNode i (fun n => { n with key := k })

/-- Assignment node._values = vs. -/
def setValuesF (i : Nat) (vs : List (Option Int)) : M Unit := modNode i (fun n => { n with values := vs })

/-- Assignment self._root = r. -/
def setRoot (r : Option Nat) : M Unit := fun h => (Except.ok (), { h with root := r })

/-- Allocation of a fresh RBNode object, returning its id. -/
def alloc (n : Node) : M Nat := fun h =>
  (Except.ok h.nodes.length, { h with nodes := h.nodes ++ [n] })

/-- Helper for positions where the Python object is known to be a real node
object: a None there would already have raised an AttributeError in the
preceding attribute reads, so this raise is unreachable in practice. -/
def forceSome (x : Option Nat) : M Nat :=
  match x with
  | some i => M.pureM i
  | none => throwE PyErr.attributeError

/-- Application of the configured comparator to two raw key attributes.
The Python default comparator raises a TypeError when one side is the key
None of the sentinel; real node keys are always integers. -/
def key_lt (cfg : Cfg) : Option Int → Option Int → M Bool
  | some a, some b => M.pureM (cfg.lt a b)
  | _, _ => throwE PyErr.typeError

/-- Application of the configured equality test to two raw key attributes. -/
def key_eq (cfg : Cfg) : Option Int → Option Int → M Bool
  | some a, some b => M.pureM (cfg.eq a b)
  | _, _ => throwE PyErr.typeError

/-- Model of RBNode equality (the Python dunder eq): two NIL colored nodes
are equal; otherwise the keys (raw equality), colors, and parents (equal by
key and color, or both absent) must agree.  Comparing a node with None
yields False without raising. -/
def node_eq (a b : Option Nat) : M Bool :=
  match a, b with
  | none, none => M.pureM true
  | some _, none => M.pureM false
  | none, some _ => M.pureM false
  | some i, some j => do
      let ni ← getNode i
      let nj ← getNode j
      if ni.color = Color.nil ∧ nj.color = Color.nil then
        M.pureM true
      else do
        let ps ←
          match ni.parent, nj.parent with
          | none, none => M.pureM true
          | none, some _ => M.pureM false
          | some _, none => M.pureM false
          | some pi, some pj => do
              let pni ← getNode pi
              let pnj ← getNode pj
              M.pureM (pni.key == pnj.key && decide (pni.color = pnj.color))
        M.pureM (ni.key == nj.key && decide (ni.color = nj.color) && ps)

/-- Read of the color attribute of a node reference; None raises. -/
def colorOf (x : Option Nat) : M Color :=
  match x with
  | some i => do
      let n ← getNode i
      M.pureM n.color
  | none => throwE PyErr.attributeError

/-- Model of is_node_red on one node reference. -/
def is_node_red1 (x : Option Nat) : M Bool := do
  let c ← colorOf x
  M.pureM (decide (c = Color.red))

/-- Model of is_node_black on one node reference. -/
def is_node_black1 (x : Option Nat) : M Bool := do
  let c ← colorOf x
  M.pureM (decide (c = Color.black))

/-- Model of is_node_not_red on one node reference. -/
def is_node_not_red1 (x : Option Nat) : M Bool := do
  let c ← colorOf x
  M.pureM (decide (¬ c = Color.red))

/-- Model of is_node_black on two node references; the Python all() call
short-circuits after the first False. -/
def is_node_black2 (x y : Option Nat) : M Bool := do
  let b ← is_node_black1 x
  if b then is_node_black1 y else M.pureM false

/-- Model of is_node_not_red on two node references, short-circuiting. -/
def is_node_not_red2 (x y : Option Nat) : M Bool := do
  let b ← is_node_not_red1 x
  if b then is_node_not_red1 y else M.pureM false

/-- Model of get_parent_node: None stays None, otherwise read the parent
attribute. -/
def get_parent_node (x : Option Nat) : M (Option Nat) :=
  match x with
  | none => M.pureM none
  | some i => do
      let n ← getNode i
      M.pureM n.parent

/-- Model of get_sibling_node: returns the sibling reference and the side
the sibling is on, or a bare None when the node has no parent (which the
callers then fail to unpack). -/
def get_sibling_node (x : Option Nat) : M (Option (Option Nat × Dir)) := do
  let p ← get_parent_node x
  match p with
  | some pi => do
      let pn ← getNode pi
      let b ← node_eq pn.left x
      if b then M.pureM (some (pn.right, Dir.right))
      else M.pureM (some (pn.left, Dir.left))
  | none => M.pureM none

/-- Unpacking of the pair returned by get_sibling_node; unpacking the bare
None raises a TypeError as in Python. -/
def unpack2 (x : Option (Option Nat × Dir)) : M (Option Nat × Dir) :=
  match x with
  | some p => M.pureM p
  | none => throwE PyErr.typeError

/-- Model of get_uncle_node: subscript zero of the get_sibling_node result
of the parent; subscripting the bare None raises a TypeError. -/
def get_uncle_node (x : Option Nat) : M (Option Nat) := do
  let p ← get_parent_node x
  let s ← get_sibling_node p
  match s with
  | some pr => M.pureM pr.fst
  | none => throwE PyErr.typeError

/-- Model of get_child_node: the left child unless it is the sentinel, else
the right child. -/
def get_child_node (i : Nat) : M (Option Nat) := do
  let n ← getNode i
  let b ← node_eq n.left (some 0)
  if b then M.pureM n.right else M.pureM n.left

/-- Model of get_children_count: zero for the sentinel, otherwise the count
of children whose color is not NIL (reading the color of a None child
would raise, but the sentinel case returns first). -/
def get_children_count (i : Nat) : M Nat := do
  let n ← getNode i
  if n.color = Color.nil then M.pureM 0
  else do
    let lc ← colorOf n.left
    let rc ← colorOf n.right
    M.pureM ((if lc = Color.nil then 0 else 1) + (if rc = Color.nil then 0 else 1))

/-- Model of has_children. -/
def has_children (i : Nat) : M Bool := do
  let c ← get_children_count i
  M.pureM (decide (0 < c))

/-- Model of get_minimum_node, with fuel for the recursion. -/
def get_minimum_node : Nat → Nat → M Nat
  | 0, _ => throwE PyErr.fuelOut
  | fuel + 1, i => do
      let n ← getNode i
      let b ← node_eq n.left (some 0)
      if b then M.pureM i
      else
        match n.left with
        | some l => get_minimum_node fuel l
        | none => throwE PyErr.attributeError

/-- Result of find_node: either the inner recursion result (a node
reference and an attachment side), or the bare sentinel object that the
method returns when the tree has no root. -/
inductive FindRet where
  | found (node : Option Nat) (dir : Option Dir)
  | nilnode
deriving DecidableEq, Repr

/-- Model of the inner recursion of find_node. -/
def inner_find (cfg : Cfg) (k : Int) (to_nil : Bool) :
    Nat → Option Nat → M (Option Nat × Option Dir)
  | 0, _ => throwE PyErr.fuelOut
  | fuel + 1, nodeOpt =>
      match nodeOpt with
      | none => M.pureM (none, none)
      | some i => do
          let isNil ← node_eq (some i) (some 0)
          if isNil then M.pureM (none, none)
          else do
            let n ← getNode i
            let eqb ← key_eq cfg (some k) n.key
            if eqb then M.pureM (some i, none)
            else do
              let ltb ← key_lt cfg (some k) n.key
              if ltb then do
                if to_nil then do
                  let ln ← node_eq n.left (some 0)
                  if ln then M.pureM (some i, some Dir.left)
                  else inner_find cfg k to_nil fuel n.left
                else inner_find cfg k to_nil fuel n.left
              else do
                if to_nil then do
                  let rn ← node_eq n.right (some 0)
                  if rn then M.pureM (some i, some Dir.right)
                  else inner_find cfg k to_nil fuel n.right
                else inner_find cfg k to_nil fuel n.right

/-- Model of find_node: dispatch on the root, returning the bare sentinel
object when the tree is empty. -/
def find_node (cfg : Cfg) (fuel : Nat) (k : Int) (to_nil : Bool) : M FindRet := do
  let h ← getH
  match h.root with
  | some r => do
      let pr ← inner_find cfg k to_nil fuel (some r)
      M.pureM (FindRet.found pr.fst pr.snd)
  | none => M.pureM FindRet.nilnode

/-- Model of contains: subscript zero of the find_node result, then
truthiness.  Subscripting the bare sentinel object raises a TypeError. -/
def contains (cfg : Cfg) (fuel : Nat) (k : Int) : M Bool := do
  let ret ← find_node cfg fuel k false
  match ret with
  | FindRet.found n _ => M.pureM n.isSome
  | FindRet.nilnode => throwE PyErr.typeError

/-- Model of validate_key: raises when the validator rejects the key,
otherwise returns True. -/
def validate_key (cfg : Cfg) (k : Int) : M Bool :=
  if cfg.valid k then M.pureM true else throwE PyErr.invalidKey

/-- Model of the private update_parent method: the node takes the place of
the old child under the new parent (the side is decided by comparing keys),
or becomes the root when the new parent is absent. -/
def update_parent (cfg : Cfg) (node oldChild : Nat) (newParent : Option Nat) : M Unit := do
  setParentF node newParent
  match newParent with
  | some np => do
      let oc ← getNode oldChild
      let npn ← getNode np
      let b ← key_lt cfg oc.key npn.key
      if b then setLeftF np (some node)
      else setRightF np (some node)
  | none => setRoot (some node)

/-- Model of rotate: re-parents the grandparent position onto the parent,
pivots the shared subtree, fixes back references, and optionally applies
the three-node insertion recoloring.  Note that when the migrated subtree
is the sentinel, its parent attribute is mutated (the shared NIL_NODE). -/
def rotate (cfg : Cfg) (dir : Dir) (node : Option Nat)
    (parent grandparent : Nat) (to_recolor : Bool) : M Unit := do
  let ggp ← get_parent_node (some grandparent)
  update_parent cfg parent grandparent ggp
  let pn ← getNode parent
  let stored ← match dir with
    | Dir.left => do
        setLeftF parent (some grandparent)
        setRightF grandparent pn.left
        M.pureM pn.left
    | Dir.right => do
        setRightF parent (some grandparent)
        setLeftF grandparent pn.right
        M.pureM pn.right
  setParentF grandparent (some parent)
  match stored with
  | some s => setParentF s (some grandparent)
  | none => throwE PyErr.attributeError
  if to_recolor then do
    setColor parent Color.black
    match node with
    | some nd => setColor nd Color.red
    | none => throwE PyErr.attributeError
    setColor grandparent Color.red
  else M.pureM ()

/-- Model of try_rebalance, with the private recolor method inlined in the
red-uncle branch (the two methods are mutually recursive; the recursion is
paid for with fuel). -/
def try_rebalance (cfg : Cfg) : Nat → Nat → M Unit
  | 0, _ => throwE PyErr.fuelOut
  | fuel + 1, node => do
      let p ← get_parent_node (some node)
      let gp ← get_parent_node p
      match p, gp with
      | none, _ => M.pureM ()
      | some _, none => M.pureM ()
      | some pi, some gpi => do
          let nr ← is_node_not_red1 (some node)
          if nr then M.pureM ()
          else do
            let pr ← is_node_not_red1 (some pi)
            if pr then M.pureM ()
            else do
              let nd ← getNode node
              let pn ← getNode pi
              let b1 ← key_lt cfg nd.key pn.key
              let nodeDir := if b1 then Dir.left else Dir.right
              let gpn ← getNode gpi
              let b2 ← key_lt cfg pn.key gpn.key
              let parentDir := if b2 then Dir.left else Dir.right
              let uncle ← get_uncle_node (some node)
              let unr ← is_node_not_red1 uncle
              if unr then
                match nodeDir, parentDir with
                | Dir.left, Dir.left =>
                    rotate cfg Dir.right (some node) pi gpi true
                | Dir.right, Dir.right =>
                    rotate cfg Dir.left (some node) pi gpi true
                | Dir.left, Dir.right => do
                    rotate cfg Dir.right none node pi false
                    rotate cfg Dir.left (some pi) node gpi true
                | Dir.right, Dir.left => do
                    rotate cfg Dir.left none node pi false
                    rotate cfg Dir.right (some pi) node gpi true
              else do
                -- the private recolor method, inlined: push black down
                -- from the grandparent, keep the root black, and recurse
                let gpn2 ← getNode gpi
                match gpn2.right with
                | some r => setColor r Color.black
                | none => throwE PyErr.attributeError
                match gpn2.left with
                | some l => setColor l Color.black
                | none => throwE PyErr.attributeError
                let h ← getH
                let isRoot ← node_eq (some gpi) h.root
                if isRoot then M.pureM () else setColor gpi Color.red
                try_rebalance cfg fuel gpi

/-- Model of add: validate the key, create a black root on an empty tree,
append the value on an exact key match, otherwise attach a fresh red leaf
at the slot found by find_node and rebalance from it. -/
def add (cfg : Cfg) (fuel : Nat) (k v : Int) : M Unit := do
  let vk ← validate_key cfg k
  if vk then do
    let h ← getH
    match h.root with
    | none => do
        let i ← alloc { key := some k, values := [some v], color := Color.black,
                        parent := none, left := some 0, right := some 0 }
        setRoot (some i)
    | some _ => do
        let ret ← find_node cfg fuel k true
        match ret with
        | FindRet.nilnode => throwE PyErr.attributeError
        | FindRet.found pOpt dOpt =>
            match pOpt with
            | none => M.pureM ()
            | some p =>
                match dOpt with
                | none => do
                    let pn ← getNode p
                    setValuesF p (pn.values ++ [some v])
                | some d => do
                    let i ← alloc { key := some k, values := [some v],
                                    color := Color.red, parent := some p,
                                    left := some 0, right := some 0 }
                    match d with
                    | Dir.left => setLeftF p (some i)
                    | Dir.right => setRightF p (some i)
                    try_rebalance cfg fuel i
  else M.pureM ()

/-- Model of the private remove_leaf method: unlink a leaf by pointing the
matching side of its parent at the sentinel; the side is decided by key
comparison (the right side when the key is not less than, or equal to, the
parent key).  The or in the Python condition short-circuits. -/
def remove_leaf (cfg : Cfg) (i : Nat) : M Unit := do
  let p ← get_parent_node (some i)
  match p with
  | none => throwE PyErr.attributeError
  | some pi => do
      let n ← getNode i
      let pn ← getNode pi
      let b ← key_lt cfg n.key pn.key
      if b then do
        let e ← key_eq cfg n.key pn.key
        if e then setRightF pi (some 0)
        else setLeftF pi (some 0)
      else setRightF pi (some 0)

/-- Model of the deletion balancer, cases one through six, as one fueled
function entered at case one; case two re-enters at case one on the same
node and case three re-enters at case one on the parent.  Each case
recomputes the parent and sibling exactly as the Python methods do. -/
def del_case_1 (cfg : Cfg) : Nat → Option Nat → M Unit
  | 0, _ => throwE PyErr.fuelOut
  | fuel + 1, node => do
      let h ← getH
      let atRoot ← node_eq h.root node
      if atRoot then
        match node with
        | some i => setColor i Color.black
        | none => throwE PyErr.attributeError
      else do
        -- case 2: sibling RED, parent black, sibling children not RED
        let p2 ← get_parent_node node
        let sd2 ← get_sibling_node node
        let pr2 ← unpack2 sd2
        let sib2 := pr2.fst
        let dir2 := pr2.snd
        let c2 ← do
          let r ← is_node_red1 sib2
          if r then do
            let pb ← is_node_black1 p2
            if pb then do
              let sn ← forceSome sib2
              let snd ← getNode sn
              is_node_not_red2 snd.left snd.right
            else M.pureM false
          else M.pureM false
        if c2 then do
          let si ← forceSome sib2
          let pi ← forceSome p2
          rotate cfg dir2 none si pi false
          setColor pi Color.red
          setColor si Color.black
          del_case_1 cfg fuel node
        else do
          -- case 3: sibling black, parent black, sibling children not RED
          let p3 ← get_parent_node node
          let sd3 ← get_sibling_node node
          let pr3 ← unpack2 sd3
          let sib3 := pr3.fst
          let c3 ← do
            let b ← is_node_black2 sib3 p3
            if b then do
              let sn ← forceSome sib3
              let snd ← getNode sn
              is_node_not_red2 snd.left snd.right
            else M.pureM false
          if c3 then do
            let si ← forceSome sib3
            setColor si Color.red
            del_case_1 cfg fuel p3
          else do
            -- case 4: parent RED, sibling black with no RED child
            let p4 ← get_parent_node node
            let r4 ← is_node_red1 p4
            let done4 ←
              if r4 then do
                let sd4 ← get_sibling_node node
                let pr4 ← unpack2 sd4
                let sib4 := pr4.fst
                let b ← is_node_black1 sib4
                if b then do
                  let sn ← forceSome sib4
                  let snd ← getNode sn
                  let nr ← is_node_not_red2 snd.left snd.right
                  if nr then do
                    let pi ← forceSome p4
                    let si ← forceSome sib4
                    let pn ← getNode pi
                    let snd2 ← getNode si
                    setColor pi snd2.color
                    setColor si pn.color
                    M.pureM true
                  else M.pureM false
                else M.pureM false
              else M.pureM false
            if done4 then M.pureM ()
            else do
              -- case 5: sibling black, closer child RED, outer not RED
              let sd5 ← get_sibling_node node
              let pr5 ← unpack2 sd5
              let sib5 := pr5.fst
              let dir5 := pr5.snd
              let si5 ← forceSome sib5
              let sn5 ← getNode si5
              let closer := if dir5 = Dir.left then sn5.right else sn5.left
              let outer5 := if dir5 = Dir.left then sn5.left else sn5.right
              let c5 ← do
                let r ← is_node_red1 closer
                if r then do
                  let nr ← is_node_not_red1 outer5
                  if nr then is_node_black1 sib5
                  else M.pureM false
                else M.pureM false
              if c5 then do
                let ci ← forceSome closer
                rotate cfg dir5 none ci si5 false
                setColor ci Color.black
                setColor si5 Color.red
              else M.pureM ()
              -- case 6: sibling black, outer child RED.  The rotation
              -- helper reads the color attribute of the parent and then
              -- reads a color attribute on that color value, which always
              -- raises an AttributeError (source lines 1149 and 1150).
              let sd6 ← get_sibling_node node
              let pr6 ← unpack2 sd6
              let sib6 := pr6.fst
              let dir6 := pr6.snd
              let si6 ← forceSome sib6
              let sn6 ← getNode si6
              let outer6 := if dir6 = Dir.left then sn6.left else sn6.right
              let b6 ← is_node_black1 sib6
              if b6 then do
                let r6 ← is_node_red1 outer6
                if r6 then throwE PyErr.attributeError
                else throwE PyErr.shouldHaveEnded
              else throwE PyErr.shouldHaveEnded

/-- Model of the private remove_black_node method: run the deletion
balancer, then unlink the node as a leaf. -/
def remove_black_node (cfg : Cfg) (fuel : Nat) (i : Nat) : M Unit := do
  del_case_1 cfg fuel (some i)
  remove_leaf cfg i

/-- Model of the private remove method, for a node with at most one child:
root replacement, red leaf unlink, black node with a red child absorbed in
place, or the double-black path through the deletion balancer. -/
def remove_inner (cfg : Cfg) (fuel : Nat) (i : Nat) : M Unit := do
  let child ← get_child_node i
  let h ← getH
  let isRoot ← node_eq (some i) h.root
  if isRoot then do
    let b ← node_eq child (some 0)
    if b then setRoot none
    else
      match child with
      | some c => do
          setRoot (some c)
          setParentF c none
          setColor c Color.black
      | none => do
          setRoot none
          throwE PyErr.attributeError
  else do
    let r ← is_node_red1 (some i)
    if r then do
      let hc ← has_children i
      if hc then throwE PyErr.unexpectedBehavior
      else remove_leaf cfg i
    else do
      let n ← getNode i
      let rh ← match n.right with
        | some rc => has_children rc
        | none => throwE PyErr.attributeError
      let anyCh ←
        if rh then M.pureM true
        else
          match n.left with
          | some lc => has_children lc
          | none => throwE PyErr.attributeError
      if anyCh then throwE PyErr.redChildHasChildren
      else do
        let cr ← is_node_red1 child
        if cr then do
          let ci ← forceSome child
          let cn ← getNode ci
          setKeyF i cn.key
          setValuesF i cn.values
          setLeftF i cn.left
          setRightF i cn.right
        else remove_black_node cfg fuel i

/-- Model of remove_node: a node with two children is first overwritten by
the key and values of its in-order successor, which is then removed in its
place. -/
def remove_node (cfg : Cfg) (fuel : Nat) (i : Nat) : M Unit := do
  let c ← get_children_count i
  let target ←
    if c = 2 then do
      let n ← getNode i
      let r ← forceSome n.right
      let succ ← get_minimum_node fuel r
      let sn ← getNode succ
      setKeyF i sn.key
      setValuesF i sn.values
      M.pureM succ
    else M.pureM i
  remove_inner cfg fuel target

/-- Model of remove_key: find the node and remove it, silently returning if
the lookup comes back empty.  On an empty tree find_node returns the bare
sentinel object, and unpacking it as a pair raises (its iterator reads the
color attribute of its absent left child). -/
def remove_key (cfg : Cfg) (fuel : Nat) (k : Int) : M Unit := do
  let ret ← find_node cfg fuel k false
  match ret with
  | FindRet.nilnode => throwE PyErr.attributeError
  | FindRet.found nOpt _ =>
      match nOpt with
      | none => M.pureM ()
      | some i => remove_node cfg fuel i

/-- Model of remove_value: remove one value from the node bucket of the
key, removing the node itself when the bucket empties.  When the key is
absent the lookup result is None and reading its values attribute raises
an AttributeError. -/
def remove_value (cfg : Cfg) (fuel : Nat) (k v : Int) : M Unit := do
  let ret ← find_node cfg fuel k false
  match ret with
  | FindRet.nilnode => throwE PyErr.attributeError
  | FindRet.found nOpt _ =>
      match nOpt with
      | none => throwE PyErr.attributeError
      | some i => do
          let n ← getNode i
          if (some v) ∈ n.values then setValuesF i (n.values.erase (some v))
          else M.pureM ()
          let n2 ← getNode i
          if n2.values.length = 0 then remove_node cfg fuel i
          else M.pureM ()

/-- Entry of the in_order listing: the Python method builds, for each
visited node, the list of its key, values, parent reference and color. -/
structure Entry where
  key : Option Int
  values : List (Option Int)
  parent : Option Nat
  color : Color
deriving DecidableEq, Repr

/-- Model of in_order: a None reference contributes nothing, but any node
object, the sentinel included, contributes an entry between the listings
of its children. -/
def in_order : Nat → Option Nat → M (List Entry)
  | 0, _ => throwE PyErr.fuelOut
  | _, none => M.pureM []
  | fuel + 1, some i => do
      let n ← getNode i
      let ls ← in_order fuel n.left
      let rs ← in_order fuel n.right
      M.pureM (ls ++ [{ key := n.key, values := n.values,
                        parent := n.parent, color := n.color }] ++ rs)

/-- Result of is_set_correctly: the base cases return a pair, but the
recursive case returns a one-element tuple because the source line ends in
a trailing comma (line 535) and the intended second component sits on a
dead line below the return (line 536). -/
inductive ISCRet where
  | two (b : Bool) (n : Int)
  | one (b : Bool)
deriving DecidableEq, Repr

/-- Unpacking an ISCRet into two names, as the two recursive call sites
do: a one-element tuple raises a ValueError. -/
def unpackISC (r : ISCRet) : M (Bool × Int) :=
  match r with
  | ISCRet.two b n => M.pureM (b, n)
  | ISCRet.one _ => throwE PyErr.valueError

/-- Model of is_set_correctly: the validation pass of the tree invariants.
A None reference passes with height one; a red root fails; a red node with
a red child fails with height minus one; otherwise both subtrees are
checked and their black heights compared — but the combined result is a
one-element tuple (see ISCRet). -/
def is_set_correctly : Nat → Option Nat → M ISCRet
  | 0, _ => throwE PyErr.fuelOut
  | fuel + 1, nodeOpt =>
      match nodeOpt with
      | none => M.pureM (ISCRet.two true 1)
      | some i => do
          let p ← get_parent_node (some i)
          let rd ← is_node_red1 (some i)
          if p = none ∧ rd then M.pureM (ISCRet.two false 0)
          else do
            let n ← getNode i
            let step ←
              if rd then do
                let lred ← match n.left with
                  | none => M.pureM false
                  | some l => is_node_red1 (some l)
                let anyRed ←
                  if lred then M.pureM true
                  else
                    match n.right with
                    | none => M.pureM false
                    | some r => is_node_red1 (some r)
                if anyRed then M.pureM (Sum.inl (ISCRet.two false (-1)))
                else M.pureM (Sum.inr (0 : Int))
              else M.pureM (Sum.inr (1 : Int))
            match step with
            | Sum.inl early => M.pureM early
            | Sum.inr _greenCount => do
                let rr ← is_set_correctly fuel n.right
                let pr ← unpackISC rr
                let lr ← is_set_correctly fuel n.left
                let pl ← unpackISC lr
                M.pureM (ISCRet.one (pr.fst && pl.fst && (pr.snd == pl.snd)))

/-!
Instrumentation for the theorems: these definitions are verification-side
observers of a heap, not translations of source code.
-/

/-- Count of black nodes along one concrete root-to-sentinel path, given as
a list of directions.  The result is some count exactly when the walk ends
at a sentinel (a None child or a NIL colored node) with the direction list
fully consumed; otherwise none. -/
def pathBlacks (h : Heap) : Option Nat → List Dir → Option Nat
  | none, [] => some 0
  | none, _ :: _ => none
  | some i, ds =>
      match h.nodes.get? i with
      | none => none
      | some n =>
          if n.color = Color.nil then
            match ds with
            | [] => some 0
            | _ :: _ => none
          else
            match ds with
            | [] => none
            | d :: ds2 =>
                let rest := pathBlacks h (match d with
                  | Dir.left => n.left
                  | Dir.right => n.right) ds2
                rest.map (fun c => c + (if n.color = Color.black then 1 else 0))

/-- Height of the structure hanging from a reference: the number of real
nodes on the longest downward chain, with fuel (none on fuel exhaustion,
which would indicate a cycle). -/
def heightN (h : Heap) : Nat → Option Nat → Option Nat
  | 0, _ => none
  | _, none => some 0
  | fuel + 1, some i =>
      match h.nodes.get? i with
      | none => some 0
      | some n =>
          if n.color = Color.nil then some 0
          else
            match heightN h fuel n.left, heightN h fuel n.right with
            | some l, some r => some (1 + max l r)
            | _, _ => none

/-- Decidable statement that no real node of the heap carries a key that
the configured equality test matches with k. -/
def keyAbsentB (cfg : Cfg) (h : Heap) (k : Int) : Bool :=
  h.nodes.all (fun n =>
    match n.key with
    | some k2 => !(cfg.eq k k2)
    | none => true)

/-- Run a monadic computation on a heap, returning the outcome and the
final heap. -/
def runM {α : Type} (m : M α) (h : Heap) : Except PyErr α × Heap := m h

/-- Sequence of add calls with the default configuration, each key paired
with itself as the value, at fuel 64. -/
def addAll (ks : List Int) : M Unit :=
  match ks with
  | [] => M.pureM ()
  | k :: rest => do
      add defaultCfg 64 k k
      addAll rest

/-!
Proof infrastructure: how a bind runs, and which computations leave the
heap untouched.
-/

theorem bind_run {α β : Type} (x : M α) (f : α → M β) (h : Heap) :
    (x >>= f) h =
      match x h with
      | (Except.ok a, h2) => f a h2
      | (Except.error e, h2) => (Except.error e, h2) := rfl

theorem pureM_run {α : Type} (a : α) (h : Heap) :
    (M.pureM a : M α) h = (Except.ok a, h) := rfl

theorem throwE_run {α : Type} (e : PyErr) (h : Heap) :
    (throwE e : M α) h = (Except.error e, h) := rfl

/-- A computation is read-only when it returns the heap it was given, on
every heap and every outcome. -/
def RO {α : Type} (m : M α) : Prop := ∀ h : Heap, (m h).2 = h

theorem ro_pureM {α : Type} (a : α) : RO (M.pureM a : M α) := fun _ => rfl

theorem ro_throwE {α : Type} (e : PyErr) : RO (throwE e : M α) := fun _ => rfl

theorem ro_bind {α β : Type} {x : M α} {f : α → M β}
    (hx : RO x) (hf : ∀ a, RO (f a)) : RO (x >>= f) := by
  intro h
  rw [bind_run]
  rcases hxe : x h with ⟨res, h2⟩
  have h2h : h2 = h := by
    have := hx h
    rw [hxe] at this
    exact this
  rw [h2h]
  cases res with
  | ok a => exact hf a h
  | error e => rfl

theorem ro_ite {α : Type} {c : Prop} [Decidable c] {x y : M α}
    (hx : RO x) (hy : RO y) : RO (if c then x else y) := by
  intro h
  by_cases hc : c
  · rw [if_pos hc]; exact hx h
  · rw [if_neg hc]; exact hy h

theorem ro_getH : RO getH := fun _ => rfl

theorem ro_getNode (i : Nat) : RO (getNode i) := by
  intro h
  unfold getNode
  cases h.nodes.get? i <;> rfl

theorem ro_key_lt (cfg : Cfg) (a b : Option Int) : RO (key_lt cfg a b) := by
  unfold key_lt
  cases a <;> cases b <;> intro h <;> rfl

theorem ro_key_eq (cfg : Cfg) (a b : Option Int) : RO (key_eq cfg a b) := by
  unfold key_eq
  cases a <;> cases b <;> intro h <;> rfl

theorem bind_run_ok {α β : Type} {x : M α} {f : α → M β} {h h2 : Heap} {a : α}
    (hx : x h = (Except.ok a, h2)) : (x >>= f) h = f a h2 := by
  rw [bind_run, hx]

theorem bind_run_error {α β : Type} {x : M α} {f : α → M β} {h h2 : Heap} {e : PyErr}
    (hx : x h = (Except.error e, h2)) : (x >>= f) h = (Except.error e, h2) := by
  rw [bind_run, hx]

theorem ro_run {α : Type} {m : M α} (hm : RO m) (h : Heap) :
    ∃ r, m h = (r, h) := by
  refine ⟨(m h).1, ?_⟩
  have h2 := hm h
  rw [Prod.ext_iff]
  exact ⟨rfl, h2⟩

theorem ro_node_eq (a b : Option Nat) : RO (node_eq a b) := by
  unfold node_eq
  cases a with
  | none => cases b with
    | none => exact ro_pureM _
    | some j => exact ro_pureM _
  | some i => cases b with
    | none => exact ro_pureM _
    | some j =>
        apply ro_bind (ro_getNode i); intro ni
        apply ro_bind (ro_getNode j); intro nj
        apply ro_ite
        · exact ro_pureM _
        · cases hni : ni.parent <;> cases hnj : nj.parent
          · exact ro_bind (ro_pureM _) (fun ps => ro_pureM _)
          · exact ro_bind (ro_pureM _) (fun ps => ro_pureM _)
          · exact ro_bind (ro_pureM _) (fun ps => ro_pureM _)
          · apply ro_bind (ro_getNode _); intro pni
            apply ro_bind (ro_getNode _); intro pnj
            exact ro_bind (ro_pureM _) (fun ps => ro_pureM _)

theorem ro_inner_find (cfg : Cfg) (k : Int) (tn : Bool) :
    ∀ fuel nOpt, RO (inner_find cfg k tn fuel nOpt) := by
  intro fuel
  induction fuel with
  | zero => intro nOpt; exact ro_throwE _
  | succ f ih =>
      intro nOpt
      cases nOpt with
      | none => exact ro_pureM _
      | some i =>
          simp only [inner_find]
          apply ro_bind (ro_node_eq _ _); intro isNil
          apply ro_ite (ro_pureM _)
          apply ro_bind (ro_getNode i); intro n
          apply ro_bind (ro_key_eq cfg _ _); intro eqb
          apply ro_ite (ro_pureM _)
          apply ro_bind (ro_key_lt cfg _ _); intro ltb
          apply ro_ite
          · cases tn with
            | false => exact ih _
            | true =>
                apply ro_bind (ro_node_eq _ _); intro ln
                exact ro_ite (ro_pureM _) (ih _)
          · cases tn with
            | false => exact ih _
            | true =>
                apply ro_bind (ro_node_eq _ _); intro rn
                exact ro_ite (ro_pureM _) (ih _)

theorem ro_find_node (cfg : Cfg) (fuel : Nat) (k : Int) (tn : Bool) :
    RO (find_node cfg fuel k tn) := by
  unfold find_node
  apply ro_bind ro_getH; intro h2
  cases h2.root with
  | none => exact ro_pureM _
  | some r => exact ro_bind (ro_inner_find cfg k tn fuel (some r)) (fun pr => ro_pureM _)

/-- Under an absent key, the inner search (in the plain lookup mode used by
remove_key, remove_value and contains) can never return a node: no branch
other than the equality branch produces one, and the equality branch needs
a key in the heap that the configured equality matches. -/
theorem inner_find_absent (cfg : Cfg) (k : Int) :
    ∀ fuel nOpt (h : Heap) i d, keyAbsentB cfg h k = true →
      (inner_find cfg k false fuel nOpt h).1 ≠ Except.ok (some i, d) := by
  intro fuel
  induction fuel with
  | zero =>
      intro nOpt h i d hA
      simp [inner_find, throwE]
  | succ f ih =>
      intro nOpt h i d hA
      cases nOpt with
      | none => simp [inner_find, M.pureM]
      | some j =>
          simp only [inner_find]
          obtain ⟨r0, hr0⟩ := ro_run (ro_node_eq (some j) (some 0)) h
          cases r0 with
          | error e => rw [bind_run_error hr0]; simp
          | ok isNil =>
              rw [bind_run_ok hr0]
              cases isNil with
              | true => simp [M.pureM]
              | false =>
                  rw [if_neg (by simp)]
                  rcases hgn : h.nodes.get? j with _ | n
                  · rw [bind_run_error (show getNode j h = (Except.error PyErr.badRef, h) by unfold getNode; rw [hgn])]
                    simp
                  · rw [bind_run_ok (show getNode j h = (Except.ok n, h) by unfold getNode; rw [hgn])]
                    have hmem : n ∈ h.nodes := List.get?_mem hgn
                    rcases hk : n.key with _ | k2
                    · rw [bind_run_error (show key_eq cfg (some k) none h = (Except.error PyErr.typeError, h) from rfl)]
                      simp
                    · have hne : cfg.eq k k2 = false := by
                        have hall := (List.all_eq_true.mp hA) n hmem
                        simp only [hk, Bool.not_eq_true'] at hall
                        simpa using hall
                      rw [bind_run_ok (show key_eq cfg (some k) (some k2) h = (Except.ok (cfg.eq k k2), h) from rfl)]
                      rw [hne, if_neg (by simp)]
                      obtain ⟨r1, hr1⟩ := ro_run (ro_key_lt cfg (some k) (some k2)) h
                      cases r1 with
                      | error e => rw [bind_run_error hr1]; simp
                      | ok ltb =>
                          rw [bind_run_ok hr1]
                          cases ltb with
                          | true => rw [if_pos rfl]; exact ih _ h i d hA
                          | false => rw [if_neg (by simp)]; exact ih _ h i d hA

/-- Lifting of the absent-key lemma to find_node. -/
theorem find_node_absent (cfg : Cfg) (fuel : Nat) (k : Int) (h : Heap)
    (i : Nat) (d : Option Dir) (hA : keyAbsentB cfg h k = true) :
    (find_node cfg fuel k false h).1 ≠ Except.ok (FindRet.found (some i) d) := by
  unfold find_node
  rw [bind_run_ok (show getH h = (Except.ok h, h) from rfl)]
  cases hr : h.root with
  | none => simp [M.pureM]
  | some r =>
      show ((inner_find cfg k false fuel (some r) >>=
        fun pr => M.pureM (FindRet.found pr.1 pr.2)) h).1 ≠
        Except.ok (FindRet.found (some i) d)
      obtain ⟨r1, hr1⟩ := ro_run (ro_inner_find cfg k false fuel (some r)) h
      cases r1 with
      | error e => rw [bind_run_error hr1]; simp
      | ok pr =>
          rw [bind_run_ok hr1]
          intro hcon
          simp only [M.pureM, Except.ok.injEq, FindRet.found.injEq] at hcon
          exact inner_find_absent cfg k fuel (some r) h i d hA
            (by rw [hr1, ← hcon.1, ← hcon.2])

/-- On a tree whose root is present, a successful find_node lookup is
always a pair coming from the inner search. -/
theorem find_node_ok_root_some (cfg : Cfg) (fuel : Nat) (k : Int) (h : Heap)
    (r : Nat) (res : FindRet) (hr : h.root = some r)
    (hok : (find_node cfg fuel k false h).1 = Except.ok res) :
    ∃ pr, res = FindRet.found pr.1 pr.2 ∧
      (inner_find cfg k false fuel (some r) h).1 = Except.ok pr := by
  have hfn : find_node cfg fuel k false h =
      ((inner_find cfg k false fuel (some r) >>=
        fun pr => M.pureM (FindRet.found pr.1 pr.2)) h) := by
    unfold find_node
    rw [bind_run_ok (show getH h = (Except.ok h, h) from rfl), hr]
  rw [hfn] at hok
  obtain ⟨r1, hr1⟩ := ro_run (ro_inner_find cfg k false fuel (some r)) h
  cases r1 with
  | error e => rw [bind_run_error hr1] at hok; simp at hok
  | ok pr =>
      rw [bind_run_ok hr1] at hok
      refine ⟨pr, ?_, by rw [hr1]⟩
      simp only [M.pureM] at hok
      exact (Except.ok.injEq _ _ ▸ hok).symm

/-- C6: removing a key that is absent from the tree leaves the heap (the
whole structure, all node colors, all keys and values, and the root)
exactly as it was, whatever the outcome value is. -/
theorem remove_key_absent_unchanged (cfg : Cfg) (fuel : Nat) (h : Heap) (k : Int)
    (hA : keyAbsentB cfg h k = true) :
    (remove_key cfg fuel k h).2 = h := by
  unfold remove_key
  obtain ⟨r0, hr0⟩ := ro_run (ro_find_node cfg fuel k false) h
  cases r0 with
  | error e => rw [bind_run_error hr0]
  | ok ret =>
      rw [bind_run_ok hr0]
      cases ret with
      | nilnode => rfl
      | found nOpt d =>
          cases nOpt with
          | none => rfl
          | some i =>
              exact absurd (by rw [hr0] : (find_node cfg fuel k false h).1 =
                Except.ok (FindRet.found (some i) d))
                (find_node_absent cfg fuel k h i d hA)

/-- C7: when the configured validator rejects the key, add raises the
invalid-key exception and performs no mutation at all. -/
theorem add_invalid_key (cfg : Cfg) (fuel : Nat) (h : Heap) (k v : Int)
    (hv : cfg.valid k = false) :
    add cfg fuel k v h = (Except.error PyErr.invalidKey, h) := by
  unfold add
  rw [bind_run_error
    (show validate_key cfg k h = (Except.error PyErr.invalidKey, h) by
      unfold validate_key; rw [hv]; rfl)]

/-- C10: on a non-empty tree, remove_value with an absent key raises an
AttributeError (the lookup result None is dereferenced) and the heap is
untouched.  The find_node success hypothesis discharges the fuel artifact
of the model. -/
theorem remove_value_absent_raises (cfg : Cfg) (fuel : Nat) (h : Heap)
    (k v : Int) (r : Nat) (res : FindRet)
    (hr : h.root = some r)
    (hA : keyAbsentB cfg h k = true)
    (hok : (find_node cfg fuel k false h).1 = Except.ok res) :
    remove_value cfg fuel k v h = (Except.error PyErr.attributeError, h) := by
  unfold remove_value
  have hfull : find_node cfg fuel k false h = (Except.ok res, h) := by
    rw [Prod.ext_iff]
    exact ⟨hok, ro_find_node cfg fuel k false h⟩
  rw [bind_run_ok hfull]
  obtain ⟨pr, hres, hinner⟩ := find_node_ok_root_some cfg fuel k h r res hr hok
  cases hpr1 : pr.1 with
  | some i =>
      exact absurd (by rw [hinner, ← hpr1] : (inner_find cfg k false fuel (some r) h).1 =
          Except.ok (some i, pr.2))
        (inner_find_absent cfg k fuel (some r) h i pr.2 hA)
  | none =>
      rw [hres, hpr1]
      rfl

/-!
Concrete scenario states used by the claim theorems.
-/

/-- Heap after adding the keys 10, 20, 30, 40 in this order: the tree is
20 black at the root, 10 black, 30 black with a red 40 as right child. -/
def heap4 : Heap := (runM (addAll [10, 20, 30, 40]) heap0).2

/-- Run of remove_key 10 on heap4: the deletion balancer falls through to
case 6 (sibling 30 black, outer child 40 red). -/
def rm10run : Except PyErr Unit × Heap := runM (remove_key defaultCfg 64 10) heap4

/-- Run of the corruption scenario: add 10, 20, 30, 40, 25, 22 (building a
tree whose node 30 is red with black children 25 and 40), then remove 10.
The deletion balancer fires case 2 with the miswired rotation direction
and the call completes without raising. -/
def c1run : Except PyErr Unit × Heap :=
  runM (do addAll [10, 20, 30, 40, 25, 22]; remove_key defaultCfg 64 10) heap0

/-- Run of the single-node round trip: add key 7, then remove it. -/
def c4run : Except PyErr Unit × Heap :=
  runM (do add defaultCfg 64 7 9; remove_key defaultCfg 64 7) heap0

/-- Heap with the single key 1 (value 2). -/
def c5heap : Heap := (runM (add defaultCfg 64 1 2) heap0).2

/-- Heap with the keys 1 and 2, used by the absent-key witnesses. -/
def c6heap : Heap := (runM (addAll [1, 2]) heap0).2

/-- Heap with the single key 5 (value 6). -/
def c9heap : Heap := (runM (add defaultCfg 64 5 6) heap0).2

/-- A configuration whose validator rejects every key. -/
def rejectCfg : Cfg :=
  { lt := fun a b => a < b, eq := fun a b => a == b, valid := fun _ => false }

/-- Height of the tree built by adding the listed keys in order. -/
def heightAfter (ks : List Int) : Option Nat :=
  let h := (runM (addAll ks) heap0).2
  heightN h 64 h.root

/-!
Intermediate heaps of the long scenario runs, as explicit literals, so that
each evaluation step below reduces only a single operation.
-/


/-- Precomputed intermediate heap hA1 of the scenario runs. -/
def hA1 : Heap :=
  { nodes := [{ key := none, values := [none], color := Color.nil, parent := none, left := none, right := none }, { key := some 10, values := [some 10], color := Color.black, parent := none, left := some 0, right := some 0 }], root := some 1 }

/-- Precomputed intermediate heap hA2 of the scenario runs. -/
def hA2 : Heap :=
  { nodes := [{ key := none, values := [none], color := Color.nil, parent := none, left := none, right := none }, { key := some 10, values := [some 10], color := Color.black, parent := none, left := some 0, right := some 2 }, { key := some 20, values := [some 20], color := Color.red, parent := some 1, left := some 0, right := some 0 }], root := some 1 }

/-- Precomputed intermediate heap hA3 of the scenario runs. -/
def hA3 : Heap :=
  { nodes := [{ key := none, values := [none], color := Color.nil, parent := some 1, left := none, right := none }, { key := some 10, values := [some 10], color := Color.red, parent := some 2, left := some 0, right := some 0 }, { key := some 20, values := [some 20], color := Color.black, parent := none, left := some 1, right := some 3 }, { key := some 30, values := [some 30], color := Color.red, parent := some 2, left := some 0, right := some 0 }], root := some 2 }

/-- Precomputed intermediate heap hA4 of the scenario runs. -/
def hA4 : Heap :=
  { nodes := [{ key := none, values := [none], color := Color.nil, parent := some 1, left := none, right := none }, { key := some 10, values := [some 10], color := Color.black, parent := some 2, left := some 0, right := some 0 }, { key := some 20, values := [some 20], color := Color.black, parent := none, left := some 1, right := some 3 }, { key := some 30, values := [some 30], color := Color.black, parent := some 2, left := some 0, right := some 4 }, { key := some 40, values := [some 40], color := Color.red, parent := some 3, left := some 0, right := some 0 }], root := some 2 }

/-- Precomputed intermediate heap hA5 of the scenario runs. -/
def hA5 : Heap :=
  { nodes := [{ key := none, values := [none], color := Color.nil, parent := some 1, left := none, right := none }, { key := some 10, values := [some 10], color := Color.black, parent := some 2, left := some 0, right := some 0 }, { key := some 20, values := [some 20], color := Color.black, parent := none, left := some 1, right := some 3 }, { key := some 30, values := [some 30], color := Color.black, parent := some 2, left := some 5, right := some 4 }, { key := some 40, values := [some 40], color := Color.red, parent := some 3, left := some 0, right := some 0 }, { key := some 25, values := [some 25], color := Color.red, parent := some 3, left := some 0, right := some 0 }], root := some 2 }

/-- Precomputed intermediate heap hA6 of the scenario runs. -/
def hA6 : Heap :=
  { nodes := [{ key := none, values := [none], color := Color.nil, parent := some 1, left := none, right := none }, { key := some 10, values := [some 10], color := Color.black, parent := some 2, left := some 0, right := some 0 }, { key := some 20, values := [some 20], color := Color.black, parent := none, left := some 1, right := some 3 }, { key := some 30, values := [some 30], color := Color.red, parent := some 2, left := some 5, right := some 4 }, { key := some 40, values := [some 40], color := Color.black, parent := some 3, left := some 0, right := some 0 }, { key := some 25, values := [some 25], color := Color.black, parent := some 3, left := some 6, right := some 0 }, { key := some 22, values := [some 22], color := Color.red, parent := some 5, left := some 0, right := some 0 }], root := some 2 }

/-- Precomputed intermediate heap c1final of the scenario runs. -/
def c1final : Heap :=
  { nodes := [{ key := none, values := [none], color := Color.nil, parent := some 1, left := none, right := none }, { key := some 10, values := [some 10], color := Color.black, parent := some 2, left := some 0, right := some 0 }, { key := some 20, values := [some 20], color := Color.black, parent := some 3, left := some 0, right := some 3 }, { key := some 30, values := [some 30], color := Color.black, parent := none, left := some 5, right := some 2 }, { key := some 40, values := [some 40], color := Color.red, parent := some 2, left := some 0, right := some 0 }, { key := some 25, values := [some 25], color := Color.black, parent := some 3, left := some 6, right := some 0 }, { key := some 22, values := [some 22], color := Color.red, parent := some 5, left := some 0, right := some 0 }], root := some 3 }

/-- Precomputed intermediate heap hB1 of the scenario runs. -/
def hB1 : Heap :=
  { nodes := [{ key := none, values := [none], color := Color.nil, parent := none, left := none, right := none }, { key := some 1, values := [some 1], color := Color.black, parent := none, left := some 0, right := some 0 }], root := some 1 }

/-- Precomputed intermediate heap hB2 of the scenario runs. -/
def hB2 : Heap :=
  { nodes := [{ key := none, values := [none], color := Color.nil, parent := none, left := none, right := none }, { key := some 1, values := [some 1], color := Color.black, parent := none, left := some 0, right := some 2 }, { key := some 2, values := [some 2], color := Color.red, parent := some 1, left := some 0, right := some 0 }], root := some 1 }

/-- Precomputed intermediate heap hB3 of the scenario runs. -/
def hB3 : Heap :=
  { nodes := [{ key := none, values := [none], color := Color.nil, parent := some 1, left := none, right := none }, { key := some 1, values := [some 1], color := Color.red, parent := some 2, left := some 0, right := some 0 }, { key := some 2, values := [some 2], color := Color.black, parent := none, left := some 1, right := some 3 }, { key := some 3, values := [some 3], color := Color.red, parent := some 2, left := some 0, right := some 0 }], root := some 2 }

/-- Precomputed intermediate heap hB4 of the scenario runs. -/
def hB4 : Heap :=
  { nodes := [{ key := none, values := [none], color := Color.nil, parent := some 1, left := none, right := none }, { key := some 1, values := [some 1], color := Color.black, parent := some 2, left := some 0, right := some 0 }, { key := some 2, values := [some 2], color := Color.black, parent := none, left := some 1, right := some 3 }, { key := some 3, values := [some 3], color := Color.black, parent := some 2, left := some 0, right := some 4 }, { key := some 4, values := [some 4], color := Color.red, parent := some 3, left := some 0, right := some 0 }], root := some 2 }

/-- Precomputed intermediate heap hB5 of the scenario runs. -/
def hB5 : Heap :=
  { nodes := [{ key := none, values := [none], color := Color.nil, parent := some 3, left := none, right := none }, { key := some 1, values := [some 1], color := Color.black, parent := some 2, left := some 0, right := some 0 }, { key := some 2, values := [some 2], color := Color.black, parent := none, left := some 1, right := some 4 }, { key := some 3, values := [some 3], color := Color.red, parent := some 4, left := some 0, right := some 0 }, { key := some 4, values := [some 4], color := Color.black, parent := some 2, left := some 3, right := some 5 }, { key := some 5, values := [some 5], color := Color.red, parent := some 4, left := some 0, right := some 0 }], root := some 2 }

/-- Precomputed intermediate heap hB6 of the scenario runs. -/
def hB6 : Heap :=
  { nodes := [{ key := none, values := [none], color := Color.nil, parent := some 3, left := none, right := none }, { key := some 1, values := [some 1], color := Color.black, parent := some 2, left := some 0, right := some 0 }, { key := some 2, values := [some 2], color := Color.black, parent := none, left := some 1, right := some 4 }, { key := some 3, values := [some 3], color := Color.black, parent := some 4, left := some 0, right := some 0 }, { key := some 4, values := [some 4], color := Color.red, parent := some 2, left := some 3, right := some 5 }, { key := some 5, values := [some 5], color := Color.black, parent := some 4, left := some 0, right := some 6 }, { key := some 6, values := [some 6], color := Color.red, parent := some 5, left := some 0, right := some 0 }], root := some 2 }

/-- Precomputed intermediate heap hB7 of the scenario runs. -/
def hB7 : Heap :=
  { nodes := [{ key := none, values := [none], color := Color.nil, parent := some 5, left := none, right := none }, { key := some 1, values := [some 1], color := Color.black, parent := some 2, left := some 0, right := some 0 }, { key := some 2, values := [some 2], color := Color.black, parent := none, left := some 1, right := some 4 }, { key := some 3, values := [some 3], color := Color.black, parent := some 4, left := some 0, right := some 0 }, { key := some 4, values := [some 4], color := Color.red, parent := some 2, left := some 3, right := some 6 }, { key := some 5, values := [some 5], color := Color.red, parent := some 6, left := some 0, right := some 0 }, { key := some 6, values := [some 6], color := Color.black, parent := some 4, left := some 5, right := some 7 }, { key := some 7, values := [some 7], color := Color.red, parent := some 6, left := some 0, right := some 0 }], root := some 2 }

theorem addAll_cons (k : Int) (rest : List Int) :
    addAll (k :: rest) = (add defaultCfg 64 k k >>= fun _ => addAll rest) := rfl

theorem stepA1 : add defaultCfg 64 10 10 heap0 = (Except.ok (), hA1) := rfl

theorem stepA2 : add defaultCfg 64 20 20 hA1 = (Except.ok (), hA2) := rfl

theorem stepA3 : add defaultCfg 64 30 30 hA2 = (Except.ok (), hA3) := rfl

theorem stepA4 : add defaultCfg 64 40 40 hA3 = (Except.ok (), hA4) := rfl

theorem stepA5 : add defaultCfg 64 25 25 hA4 = (Except.ok (), hA5) := rfl

theorem stepA6 : add defaultCfg 64 22 22 hA5 = (Except.ok (), hA6) := rfl

theorem stepA7 : remove_key defaultCfg 64 10 hA6 = (Except.ok (), c1final) := rfl

theorem stepB1 : add defaultCfg 64 1 1 heap0 = (Except.ok (), hB1) := rfl

theorem stepB2 : add defaultCfg 64 2 2 hB1 = (Except.ok (), hB2) := rfl

theorem stepB3 : add defaultCfg 64 3 3 hB2 = (Except.ok (), hB3) := rfl

theorem stepB4 : add defaultCfg 64 4 4 hB3 = (Except.ok (), hB4) := rfl

theorem stepB5 : add defaultCfg 64 5 5 hB4 = (Except.ok (), hB5) := rfl

theorem stepB6 : add defaultCfg 64 6 6 hB5 = (Except.ok (), hB6) := rfl

theorem stepB7 : add defaultCfg 64 7 7 hB6 = (Except.ok (), hB7) := rfl

theorem addAllA_run : addAll [10, 20, 30, 40, 25, 22] heap0 = (Except.ok (), hA6) := by
  have s1 : addAll [10, 20, 30, 40, 25, 22] heap0 = addAll [20, 30, 40, 25, 22] hA1 := by
    rw [addAll_cons]; exact bind_run_ok stepA1
  have s2 : addAll [20, 30, 40, 25, 22] hA1 = addAll [30, 40, 25, 22] hA2 := by
    rw [addAll_cons]; exact bind_run_ok stepA2
  have s3 : addAll [30, 40, 25, 22] hA2 = addAll [40, 25, 22] hA3 := by
    rw [addAll_cons]; exact bind_run_ok stepA3
  have s4 : addAll [40, 25, 22] hA3 = addAll [25, 22] hA4 := by
    rw [addAll_cons]; exact bind_run_ok stepA4
  have s5 : addAll [25, 22] hA4 = addAll [22] hA5 := by
    rw [addAll_cons]; exact bind_run_ok stepA5
  have s6 : addAll [22] hA5 = addAll [] hA6 := by
    rw [addAll_cons]; exact bind_run_ok stepA6
  exact s1.trans (s2.trans (s3.trans (s4.trans (s5.trans (s6.trans (rfl))))))

theorem addAllB_run1 : addAll [1] heap0 = (Except.ok (), hB1) := by
  have s1 : addAll [1] heap0 = addAll [] hB1 := by
    rw [addAll_cons]; exact bind_run_ok stepB1
  exact s1.trans (rfl)

theorem addAllB_run2 : addAll [1, 2] heap0 = (Except.ok (), hB2) := by
  have s1 : addAll [1, 2] heap0 = addAll [2] hB1 := by
    rw [addAll_cons]; exact bind_run_ok stepB1
  have s2 : addAll [2] hB1 = addAll [] hB2 := by
    rw [addAll_cons]; exact bind_run_ok stepB2
  exact s1.trans (s2.trans (rfl))

theorem addAllB_run3 : addAll [1, 2, 3] heap0 = (Except.ok (), hB3) := by
  have s1 : addAll [1, 2, 3] heap0 = addAll [2, 3] hB1 := by
    rw [addAll_cons]; exact bind_run_ok stepB1
  have s2 : addAll [2, 3] hB1 = addAll [3] hB2 := by
    rw [addAll_cons]; exact bind_run_ok stepB2
  have s3 : addAll [3] hB2 = addAll [] hB3 := by
    rw [addAll_cons]; exact bind_run_ok stepB3
  exact s1.trans (s2.trans (s3.trans (rfl)))

theorem addAllB_run4 : addAll [1, 2, 3, 4] heap0 = (Except.ok (), hB4) := by
  have s1 : addAll [1, 2, 3, 4] heap0 = addAll [2, 3, 4] hB1 := by
    rw [addAll_cons]; exact bind_run_ok stepB1
  have s2 : addAll [2, 3, 4] hB1 = addAll [3, 4] hB2 := by
    rw [addAll_cons]; exact bind_run_ok stepB2
  have s3 : addAll [3, 4] hB2 = addAll [4] hB3 := by
    rw [addAll_cons]; exact bind_run_ok stepB3
  have s4 : addAll [4] hB3 = addAll [] hB4 := by
    rw [addAll_cons]; exact bind_run_ok stepB4
  exact s1.trans (s2.trans (s3.trans (s4.trans (rfl))))

theorem addAllB_run5 : addAll [1, 2, 3, 4, 5] heap0 = (Except.ok (), hB5) := by
  have s1 : addAll [1, 2, 3, 4, 5] heap0 = addAll [2, 3, 4, 5] hB1 := by
    rw [addAll_cons]; exact bind_run_ok stepB1
  have s2 : addAll [2, 3, 4, 5] hB1 = addAll [3, 4, 5] hB2 := by
    rw [addAll_cons]; exact bind_run_ok stepB2
  have s3 : addAll [3, 4, 5] hB2 = addAll [4, 5] hB3 := by
    rw [addAll_cons]; exact bind_run_ok stepB3
  have s4 : addAll [4, 5] hB3 = addAll [5] hB4 := by
    rw [addAll_cons]; exact bind_run_ok stepB4
  have s5 : addAll [5] hB4 = addAll [] hB5 := by
    rw [addAll_cons]; exact bind_run_ok stepB5
  exact s1.trans (s2.trans (s3.trans (s4.trans (s5.trans (rfl)))))

theorem addAllB_run6 : addAll [1, 2, 3, 4, 5, 6] heap0 = (Except.ok (), hB6) := by
  have s1 : addAll [1, 2, 3, 4, 5, 6] heap0 = addAll [2, 3, 4, 5, 6] hB1 := by
    rw [addAll_cons]; exact bind_run_ok stepB1
  have s2 : addAll [2, 3, 4, 5, 6] hB1 = addAll [3, 4, 5, 6] hB2 := by
    rw [addAll_cons]; exact bind_run_ok stepB2
  have s3 : addAll [3, 4, 5, 6] hB2 = addAll [4, 5, 6] hB3 := by
    rw [addAll_cons]; exact bind_run_ok stepB3
  have s4 : addAll [4, 5, 6] hB3 = addAll [5, 6] hB4 := by
    rw [addAll_cons]; exact bind_run_ok stepB4
  have s5 : addAll [5, 6] hB4 = addAll [6] hB5 := by
    rw [addAll_cons]; exact bind_run_ok stepB5
  have s6 : addAll [6] hB5 = addAll [] hB6 := by
    rw [addAll_cons]; exact bind_run_ok stepB6
  exact s1.trans (s2.trans (s3.trans (s4.trans (s5.trans (s6.trans (rfl))))))

theorem addAllB_run7 : addAll [1, 2, 3, 4, 5, 6, 7] heap0 = (Except.ok (), hB7) := by
  have s1 : addAll [1, 2, 3, 4, 5, 6, 7] heap0 = addAll [2, 3, 4, 5, 6, 7] hB1 := by
    rw [addAll_cons]; exact bind_run_ok stepB1
  have s2 : addAll [2, 3, 4, 5, 6, 7] hB1 = addAll [3, 4, 5, 6, 7] hB2 := by
    rw [addAll_cons]; exact bind_run_ok stepB2
  have s3 : addAll [3, 4, 5, 6, 7] hB2 = addAll [4, 5, 6, 7] hB3 := by
    rw [addAll_cons]; exact bind_run_ok stepB3
  have s4 : addAll [4, 5, 6, 7] hB3 = addAll [5, 6, 7] hB4 := by
    rw [addAll_cons]; exact bind_run_ok stepB4
  have s5 : addAll [5, 6, 7] hB4 = addAll [6, 7] hB5 := by
    rw [addAll_cons]; exact bind_run_ok stepB5
  have s6 : addAll [6, 7] hB5 = addAll [7] hB6 := by
    rw [addAll_cons]; exact bind_run_ok stepB6
  have s7 : addAll [7] hB6 = addAll [] hB7 := by
    rw [addAll_cons]; exact bind_run_ok stepB7
  exact s1.trans (s2.trans (s3.trans (s4.trans (s5.trans (s6.trans (s7.trans (rfl)))))))

theorem c1run_eval : c1run = (Except.ok (), c1final) := by
  have hseq : c1run = remove_key defaultCfg 64 10 hA6 := by
    show (addAll [10, 20, 30, 40, 25, 22] >>=
      fun _ => remove_key defaultCfg 64 10) heap0 = _
    exact bind_run_ok addAllA_run
  rw [hseq, stepA7]

theorem heightAfterB1 : heightAfter [1] = some 1 := by
  unfold heightAfter
  rw [show (runM (addAll [1]) heap0).2 = hB1 by rw [show runM (addAll [1]) heap0 = (Except.ok (), hB1) from addAllB_run1]]
  rfl

theorem heightAfterB2 : heightAfter [1, 2] = some 2 := by
  unfold heightAfter
  rw [show (runM (addAll [1, 2]) heap0).2 = hB2 by rw [show runM (addAll [1, 2]) heap0 = (Except.ok (), hB2) from addAllB_run2]]
  rfl

theorem heightAfterB3 : heightAfter [1, 2, 3] = some 2 := by
  unfold heightAfter
  rw [show (runM (addAll [1, 2, 3]) heap0).2 = hB3 by rw [show runM (addAll [1, 2, 3]) heap0 = (Except.ok (), hB3) from addAllB_run3]]
  rfl

theorem heightAfterB4 : heightAfter [1, 2, 3, 4] = some 3 := by
  unfold heightAfter
  rw [show (runM (addAll [1, 2, 3, 4]) heap0).2 = hB4 by rw [show runM (addAll [1, 2, 3, 4]) heap0 = (Except.ok (), hB4) from addAllB_run4]]
  rfl

theorem heightAfterB5 : heightAfter [1, 2, 3, 4, 5] = some 3 := by
  unfold heightAfter
  rw [show (runM (addAll [1, 2, 3, 4, 5]) heap0).2 = hB5 by rw [show runM (addAll [1, 2, 3, 4, 5]) heap0 = (Except.ok (), hB5) from addAllB_run5]]
  rfl

theorem heightAfterB6 : heightAfter [1, 2, 3, 4, 5, 6] = some 4 := by
  unfold heightAfter
  rw [show (runM (addAll [1, 2, 3, 4, 5, 6]) heap0).2 = hB6 by rw [show runM (addAll [1, 2, 3, 4, 5, 6]) heap0 = (Except.ok (), hB6) from addAllB_run6]]
  rfl

theorem heightAfterB7 : heightAfter [1, 2, 3, 4, 5, 6, 7] = some 4 := by
  unfold heightAfter
  rw [show (runM (addAll [1, 2, 3, 4, 5, 6, 7]) heap0).2 = hB7 by rw [show runM (addAll [1, 2, 3, 4, 5, 6, 7]) heap0 = (Except.ok (), hB7) from addAllB_run7]]
  rfl

/-!
Claim theorems.
-/

/-- C1: the claim says that after every completed add or remove operation
the red-black invariants hold, in particular that every root-to-sentinel
path passes through the same number of black nodes.  The code violates
this: after adding 10, 20, 30, 40, 25, 22 and then removing 10 — a call
that completes and returns normally — the root-to-sentinel path
left-left-left passes through 2 black nodes while the path
right-right-left-left-left passes through 4 (case 2 of the deletion
balancer rotates in the wrong direction, leaving a parent-child cycle and
dropping node 40 from the tree). -/
theorem c1_completed_remove_breaks_black_height :
    c1run.1 = Except.ok () ∧
    pathBlacks c1run.2 c1run.2.root [Dir.left, Dir.left, Dir.left] = some 2 ∧
    pathBlacks c1run.2 c1run.2.root
      [Dir.right, Dir.right, Dir.left, Dir.left, Dir.left] = some 4 := by
  refine ⟨?_, ?_, ?_⟩ <;> rw [c1run_eval] <;> rfl

/-- C2: the claim says that case 6 of the deletion balancer rotates the
sibling up, recolors, and terminates with the deficiency resolved.  The
code instead always raises an AttributeError in the case 6 rotation helper
(source lines 1149 and 1150 read a color attribute off a color value):
removing 10 from the tree built from 10, 20, 30, 40 reaches exactly case 6
and raises. -/
theorem c2_case6_raises_attribute_error :
    rm10run.1 = Except.error PyErr.attributeError := rfl

/-- C3: the claim says that inserting a set of distinct keys and then
removing them all in any order yields an empty tree with contains false
for every key.  The code violates this: for the key set 10, 20, 30, 40,
the removal order starting with 10 raises an AttributeError on the very
first removal (deletion case 6), the root is still present, and key 10 is
still stored in the tree. -/
theorem c3_roundtrip_fails :
    rm10run.1 = Except.error PyErr.attributeError ∧
    rm10run.2.root = some 2 ∧
    (rm10run.2.nodes.get? 1).map Node.key = some (some 10) :=
  ⟨rfl, rfl, rfl⟩

/-- C4: the claim says that removing the sole element of a single-node
tree empties it and that contains of that key then returns false.  The
emptying part holds, but contains on the now-empty tree raises a TypeError
instead of returning false: find_node on an empty tree returns the bare
sentinel object rather than a pair, and contains subscripts it. -/
theorem c4_empty_but_contains_raises :
    c4run.1 = Except.ok () ∧
    c4run.2.root = none ∧
    (runM (contains defaultCfg 64 7) c4run.2).1 = Except.error PyErr.typeError :=
  ⟨rfl, rfl, rfl⟩

/-- C5: the claim says the in-order traversal used for iteration and for
printing visits only real nodes, skipping sentinels.  The in_order method
(used by the str conversion) does not skip them: on a tree holding only
key 1 it emits three entries, the first and last being the sentinel entry
with key None, values [None], and color NIL. -/
theorem c5_in_order_includes_sentinels :
    (runM (in_order 64 c5heap.root) c5heap).1 =
      Except.ok
        [{ key := none, values := [none], parent := none, color := Color.nil },
         { key := some 1, values := [some 2], parent := none, color := Color.black },
         { key := none, values := [none], parent := none, color := Color.nil }] := rfl

/-- C6: removing an absent key leaves the tree completely unchanged (same
structure, same colors, same keys and values, same root), on every heap
and with any outcome of the call, for any configuration whose equality
test matches the key against no stored key. -/
theorem c6_remove_absent_key_unchanged (cfg : Cfg) (fuel : Nat) (h : Heap) (k : Int)
    (hA : keyAbsentB cfg h k = true) :
    (remove_key cfg fuel k h).2 = h :=
  remove_key_absent_unchanged cfg fuel h k hA

/-- C6 witness: removing the absent key 5 from the concrete two-key tree
returns the heap unchanged. -/
theorem c6_remove_absent_key_unchanged_witness :
    keyAbsentB defaultCfg c6heap 5 = true ∧
    (remove_key defaultCfg 64 5 c6heap).2 = c6heap :=
  ⟨rfl, c6_remove_absent_key_unchanged defaultCfg 64 c6heap 5 rfl⟩

/-- C7: when the configured validator rejects a key, add raises the
invalid-key exception, the exception reaches the caller as the result of
the call, and the heap is exactly as before. -/
theorem c7_add_invalid_key_raises_no_mutation (cfg : Cfg) (fuel : Nat) (h : Heap)
    (k v : Int) (hv : cfg.valid k = false) :
    add cfg fuel k v h = (Except.error PyErr.invalidKey, h) :=
  add_invalid_key cfg fuel h k v hv

/-- C7 witness: with a validator rejecting everything, add of key 0 on the
fresh tree raises and leaves the initial heap unchanged. -/
theorem c7_add_invalid_key_raises_no_mutation_witness :
    rejectCfg.valid 0 = false ∧
    add rejectCfg 64 0 0 heap0 = (Except.error PyErr.invalidKey, heap0) :=
  ⟨rfl, c7_add_invalid_key_raises_no_mutation rejectCfg 64 heap0 0 0 rfl⟩

/-- C8 counterexample: the claim says that inserting 1 through 7 ascending
keeps the height at 3 or below at every point.  After all seven inserts
the height is 4. -/
theorem c8_height_reaches_four :
    ∃ n, heightAfter [1, 2, 3, 4, 5, 6, 7] = some n ∧ 3 < n :=
  ⟨4, heightAfterB7, by norm_num⟩

/-- C8 amended: inserting 1 through 7 ascending keeps the tree height at 4
or below after every insert (not 3), and the tree never degenerates into a
linked list of 7 nodes (the height stays below 7). -/
theorem c8_heights_bounded :
    ∀ hx ∈ [heightAfter [1], heightAfter [1, 2], heightAfter [1, 2, 3],
            heightAfter [1, 2, 3, 4], heightAfter [1, 2, 3, 4, 5],
            heightAfter [1, 2, 3, 4, 5, 6], heightAfter [1, 2, 3, 4, 5, 6, 7]],
      ∃ n, hx = some n ∧ n ≤ 4 ∧ n < 7 := by
  simp only [heightAfterB1, heightAfterB2, heightAfterB3, heightAfterB4,
    heightAfterB5, heightAfterB6, heightAfterB7]
  decide

/-- C8 amended witness: the final height value in the list satisfies the
bound. -/
theorem c8_heights_bounded_witness :
    heightAfter [1, 2, 3, 4, 5, 6, 7] ∈
      [heightAfter [1], heightAfter [1, 2], heightAfter [1, 2, 3],
       heightAfter [1, 2, 3, 4], heightAfter [1, 2, 3, 4, 5],
       heightAfter [1, 2, 3, 4, 5, 6], heightAfter [1, 2, 3, 4, 5, 6, 7]] ∧
    ∃ n, heightAfter [1, 2, 3, 4, 5, 6, 7] = some n ∧ n ≤ 4 ∧ n < 7 :=
  ⟨by simp, c8_heights_bounded (heightAfter [1, 2, 3, 4, 5, 6, 7]) (by simp)⟩

/-- C9: the claim says is_set_correctly returns a pair of a pass-fail
boolean and the subtree black height.  The recursive return statement ends
in a trailing comma (source line 535), so it returns a one-element tuple
and the recursive unpacking raises a ValueError on any tree with a real
node: here on the root of a single-node tree. -/
theorem c9_validation_pass_raises_value_error :
    (runM (is_set_correctly 64 c9heap.root) c9heap).1 =
      Except.error PyErr.valueError := rfl

/-- C10: on a non-empty tree, remove_value with an absent key raises an
AttributeError (the None returned by the lookup is dereferenced) and
removes nothing: the heap is exactly as before the call. -/
theorem c10_remove_value_absent_raises (cfg : Cfg) (fuel : Nat) (h : Heap)
    (k v : Int) (r : Nat) (res : FindRet)
    (hr : h.root = some r)
    (hA : keyAbsentB cfg h k = true)
    (hok : (find_node cfg fuel k false h).1 = Except.ok res) :
    remove_value cfg fuel k v h = (Except.error PyErr.attributeError, h) :=
  remove_value_absent_raises cfg fuel h k v r res hr hA hok

/-- C10 witness: remove_value of the absent key 5 on the concrete two-key
tree raises an AttributeError and leaves the heap unchanged. -/
theorem c10_remove_value_absent_raises_witness :
    c6heap.root = some 1 ∧
    keyAbsentB defaultCfg c6heap 5 = true ∧
    remove_value defaultCfg 64 5 5 c6heap =
      (Except.error PyErr.attributeError, c6heap) :=
  ⟨rfl, rfl,
    c10_remove_value_absent_raises defaultCfg 64 c6heap 5 5 1
      (FindRet.found none none) rfl rfl rfl⟩

end RBT
